import Mathlib

/-!
Verification of the messaging/presence core of the WhatsApp-style MVP backend
(`src/main.py`, `src/schemas.py`).

Shallow embedding conventions:
* timestamps are `Nat` (a single global clock; `now_utc()` at a call site is an
  explicit `now : Nat` argument);
* MongoDB ObjectIds are 24-character lowercase hex strings; `bson.ObjectId`
  applied to a raw request string either canonicalises it (lower-casing) or
  raises `bson.errors.InvalidId`;
* the document store collections used by the core are association lists keyed
  by id string (`message`), or plain record lists (`session`);
* the in-memory websocket table `active_connections : dict[str, WebSocket]` is
  an association list from user id to a connection handle (`Nat`); Python `is`
  identity on `WebSocket` objects is equality of handles;
* a FastAPI handler either returns a JSON value, raises `HTTPException`
  (surfaced as a client error with a detail string) or raises an uncaught
  exception (surfaced by the framework as a 500 server error).  Both kinds of
  raising are `MError`; the store mutations already performed before the raise
  persist, so handler models return the final store alongside the
  `Except`-valued response.
-/

/-- `schemas.Session`: owning user id, opaque token, absolute expiry. -/
structure SessionDoc where
  user_id : String
  token : String
  expires_at : Nat
deriving Repr, DecidableEq

/-- `schemas.Message`: sender, recipient, payload fields, status string
(`"sent" | "delivered" | "read"`), and the three timestamps. -/
structure MessageDoc where
  sender_id : String
  recipient_id : String
  text : Option String
  ciphertext : Option String
  nonce : Option String
  status : String
  sent_at : Option Nat
  delivered_at : Option Nat
  read_at : Option Nat
deriving Repr, DecidableEq

/-- Structured events pushed over a websocket connection
(`ws.send_json` payloads, discriminated by their `type` field). -/
inductive Event where
  | messageEvent (id sender_id recipient_id : String)
      (text ciphertext nonce : Option String) (sent_at : Nat)
  | readEvent (message_id : String) (read_at : Nat) (recipient_id : String)
  | connectedEvent (user_id : String)
deriving Repr, DecidableEq

/-- Ways a handler terminates abnormally: an `HTTPException(status, detail)`
(client error carrying a reason string), an uncaught `bson.errors.InvalidId`
from `ObjectId(raw)`, or an uncaught failure of `ws.send_json` — the latter
two are surfaced by the framework as 500 server errors. -/
inductive MError where
  | http (status : Nat) (detail : String)
  | invalidId (raw : String)
  | pushFailure
deriving Repr, DecidableEq

/-- `main.require_user`: look up sessions by token; none → 401 "Invalid token";
first match expired (`expires_at < now`) → 401 "Session expired"; otherwise the
owning user id.  Purely a read: it takes the session collection and returns
only an id, mutating nothing. -/
def require_user (sessions : List SessionDoc) (token : String) (now : Nat) :
    Except MError String :=
  match sessions.filter (fun s => s.token == token) with
  | [] => .error (.http 401 "Invalid token")
  | s :: _ => if s.expires_at < now then .error (.http 401 "Session expired")
              else .ok s.user_id

/-- `active_connections.get(uid)`. -/
def lookupConn (conns : List (String × Nat)) (uid : String) : Option Nat :=
  (conns.find? (fun p => p.1 == uid)).map (fun p => p.2)

/-- `active_connections[uid] = ws` — dict assignment, unconditionally
overwriting any previous binding for `uid`. -/
def registerConn (conns : List (String × Nat)) (uid : String) (ws : Nat) :
    List (String × Nat) :=
  (uid, ws) :: conns.filter (fun p => p.1 != uid)

/-- The `finally` cleanup of `websocket_endpoint`: scan the entries and pop the
first (and, the table being one-slot-per-user, only) user whose registered
socket `is` this connection; no match → no-op. -/
def deregisterConn (conns : List (String × Nat)) (ws : Nat) :
    List (String × Nat) :=
  conns.eraseP (fun p => p.2 == ws)

/-- A raw string is accepted by `bson.ObjectId` iff it is 24 hex digits. -/
def isValidObjectId (s : String) : Bool :=
  s.length == 24 && s.toList.all (fun c =>
    c.isDigit || ('a' ≤ c && c ≤ 'f') || ('A' ≤ c && c ≤ 'F'))

/-- ASCII lower-casing of a hex digit (`ObjectId` canonicalises its input to
lowercase hex, and `A`–`F` are the only letters a valid input can hold). -/
def lowerHexChar (c : Char) : Char :=
  if 'A' ≤ c && c ≤ 'F' then Char.ofNat (c.toNat + 32) else c

/-- Canonical form of an accepted ObjectId string: `str(ObjectId(s))`. -/
def lowerHex (s : String) : String :=
  ⟨s.toList.map lowerHexChar⟩

/-- `[ObjectId(i) for i in req.message_ids]`: left to right, raising
`InvalidId` at the first malformed id; a parsed ObjectId is the canonical
lowercase-hex form of its input. -/
def parseIds : List String → Except MError (List String)
  | [] => .ok []
  | s :: rest =>
      if isValidObjectId s then
        match parseIds rest with
        | .ok ids => .ok (lowerHex s :: ids)
        | .error e => .error e
      else .error (.invalidId s)

/-- `db["message"].update_many({"_id": {"$in": ids}, "recipient_id": uid},
{"$set": {"status": "read", "read_at": now}})` — every message in the id set
whose recipient is `uid` gets status "read" and a fresh `read_at`; all other
documents are untouched. -/
def readUpdateList (msgs : List (String × MessageDoc)) (ids : List String)
    (uid : String) (now : Nat) : List (String × MessageDoc) :=
  msgs.map (fun p =>
    if ids.contains p.1 && p.2.recipient_id == uid then
      (p.1, { p.2 with status := "read", read_at := some now })
    else p)

/-- The notification loop of `mark_read`: for every id in the request (found
or not in the store, updated or not), `find_one` the message and, if its
sender is in `active_connections`, push a `"read"` event to that socket. -/
def notifyEvents (msgs : List (String × MessageDoc))
    (conns : List (String × Nat)) (ids : List String) (uid : String)
    (now : Nat) : List (Nat × Event) :=
  ids.filterMap (fun oid =>
    (msgs.find? (fun p => p.1 == oid)).bind (fun p =>
      (lookupConn conns p.2.sender_id).map (fun ws =>
        (ws, Event.readEvent oid now uid))))

instance {ε α : Type} [DecidableEq ε] [DecidableEq α] :
    DecidableEq (Except ε α) := fun a b =>
  match a, b with
  | .ok x, .ok y =>
      if h : x = y then isTrue (by rw [h])
      else isFalse (by intro hc; cases hc; exact h rfl)
  | .error x, .error y =>
      if h : x = y then isTrue (by rw [h])
      else isFalse (by intro hc; cases hc; exact h rfl)
  | .ok _, .error _ => isFalse (by intro hc; cases hc)
  | .error _, .ok _ => isFalse (by intro hc; cases hc)

/-- Outcome of the `POST /messages/read` handler: the message collection after
the handler ran, the events pushed, and the response — `.ok n` is the JSON
`{"updated": n}`, `.error` a raised exception. -/
structure MarkReadOutcome where
  messages : List (String × MessageDoc)
  events : List (Nat × Event)
  response : Except MError Nat
deriving Repr, DecidableEq

/-- `main.mark_read`: authenticate, parse the ids (both before any write, so a
failure leaves the store unchanged), apply the recipient-guarded
`update_many`, run the notification loop over ALL parsed ids, and answer
`{"updated": len(ids)}`. -/
def mark_read (sessions : List SessionDoc) (msgs : List (String × MessageDoc))
    (conns : List (String × Nat)) (token : String)
    (message_ids : List String) (now : Nat) : MarkReadOutcome :=
  match require_user sessions token now with
  | .error e => ⟨msgs, [], .error e⟩
  | .ok user_id =>
      match parseIds message_ids with
      | .error e => ⟨msgs, [], .error e⟩
      | .ok ids =>
          let msgs' := readUpdateList msgs ids user_id now
          ⟨msgs', notifyEvents msgs' conns ids user_id now, .ok ids.length⟩

/-- `db["message"].update_one({"_id": mid}, {"$set": {"status": "delivered",
"delivered_at": now}})` — line 218 of `main.py`: the first document with this
id gets status "delivered" unconditionally (no guard on its current status). -/
def deliveredUpdate : List (String × MessageDoc) → String → Nat →
    List (String × MessageDoc)
  | [], _, _ => []
  | p :: rest, mid, now =>
      if p.1 == mid then
        (p.1, { p.2 with status := "delivered", delivered_at := some now }) :: rest
      else p :: deliveredUpdate rest mid now

/-- Outcome of the `POST /messages/send` handler. -/
structure SendOutcome where
  messages : List (String × MessageDoc)
  events : List (Nat × Event)
  response : Except MError String
deriving Repr, DecidableEq

/-- `main.send_message`: authenticate, insert the message with status "sent",
then look the recipient up in `active_connections`; if online, push a
`"message"` event — `pushOk` is the fate of that `await ws.send_json` (the
connection may already be broken) — and, only when the push returned, run the
unconditional delivered-update.  The push is NOT wrapped in try/except: a push
failure propagates out of the handler (the inserted message survives). -/
def send_message (sessions : List SessionDoc)
    (msgs : List (String × MessageDoc)) (conns : List (String × Nat))
    (token recipient_id : String) (text ciphertext nonce : Option String)
    (now : Nat) (newId : String) (pushOk : Bool) : SendOutcome :=
  match require_user sessions token now with
  | .error e => ⟨msgs, [], .error e⟩
  | .ok sender_id =>
      let m : MessageDoc :=
        ⟨sender_id, recipient_id, text, ciphertext, nonce, "sent", some now,
          none, none⟩
      let msgs1 := msgs ++ [(newId, m)]
      match lookupConn conns recipient_id with
      | none => ⟨msgs1, [], .ok newId⟩
      | some ws =>
          if pushOk then
            ⟨deliveredUpdate msgs1 newId now,
              [(ws, Event.messageEvent newId sender_id recipient_id text
                ciphertext nonce now)],
              .ok newId⟩
          else ⟨msgs1, [], .error .pushFailure⟩

/-- Observable actions of the `websocket_endpoint` control loop. -/
inductive WsAction where
  | accept
  | register (uid : String) (ws : Nat)
  | sendConnected (ws : Nat) (uid : String)
  | deregister (ws : Nat)
deriving Repr, DecidableEq

/-- How a successfully authenticated connection eventually terminates:
the keep-alive read loop raises `WebSocketDisconnect`, the read loop raises
some other I/O error, or the `"connected"` confirmation send itself fails.
All three are caught by the `except` arms; the `finally` runs regardless. -/
inductive LoopExit where
  | disconnect
  | readError
  | sendError
deriving Repr, DecidableEq

/-- `main.websocket_endpoint` as the trace of actions it performs: accept,
then — inside `try` — authenticate the first frame; on failure the raised
`HTTPException` is swallowed by `except Exception` and only the `finally`
cleanup runs; on success register, send the confirmation (unless that send is
the failure), loop until `exit`, and in every case run the `finally`
cleanup exactly once. -/
def wsHandlerTrace (sessions : List SessionDoc) (token : String) (now : Nat)
    (ws : Nat) (exit : LoopExit) : List WsAction :=
  match require_user sessions token now with
  | .error _ => [.accept, .deregister ws]
  | .ok uid =>
      match exit with
      | .sendError => [.accept, .register uid ws, .deregister ws]
      | _ => [.accept, .register uid ws, .sendConnected ws uid, .deregister ws]

/-- Is a `require_user` result a success? -/
def authOk (r : Except MError String) : Bool :=
  match r with
  | .ok _ => true
  | .error _ => false

/-- Recognise a `register` action. -/
def isRegisterAction : WsAction → Bool
  | .register _ _ => true
  | _ => false

/-- Recognise a `deregister` action. -/
def isDeregisterAction : WsAction → Bool
  | .deregister _ => true
  | _ => false

/-- Look a message up by id (the value part of `find_one({"_id": mid})`). -/
def findMsg (msgs : List (String × MessageDoc)) (mid : String) :
    Option MessageDoc :=
  (msgs.find? (fun p => p.1 == mid)).map (fun p => p.2)

/-- Is an `MError` one of the `HTTPException`s the handler raises on purpose
(a client error carrying a reason string), as opposed to an uncaught
exception the framework turns into a 500 server error? -/
def isClientError : MError → Bool
  | .http _ _ => true
  | _ => false

/-- C6 counterexample: at the exact expiry instant (`expires_at = now = 5`)
the expiry is NOT strictly in the future, yet `require_user` accepts the
token and returns the user id instead of failing "Session expired" — the
code's check is `expires_at < now`, not `¬ (now < expires_at)`. -/
theorem require_user_boundary_counterexample :
    ¬ (5 : Nat) < 5 ∧
      require_user [⟨"u1", "tok", 5⟩] "tok" 5 = .ok "u1" := by
  decide

/-- C6 (amended): session validation with no matching session fails 401
"Invalid token"; with a first matching session it fails 401 "Session
expired" exactly when the expiry is strictly before `now`, and returns the
owning user id whenever `now ≤ expires_at` (so an expiry equal to `now` —
not strictly in the future — is still accepted).  `require_user` is a pure
function of the session collection: it performs no writes. -/
theorem require_user_spec (sessions : List SessionDoc) (token : String)
    (now : Nat) :
    (sessions.filter (fun s => s.token == token) = [] →
      require_user sessions token now = .error (.http 401 "Invalid token")) ∧
    (∀ s rest, sessions.filter (fun s => s.token == token) = s :: rest →
      (s.expires_at < now →
        require_user sessions token now = .error (.http 401 "Session expired")) ∧
      (now ≤ s.expires_at →
        require_user sessions token now = .ok s.user_id)) := by
  constructor
  · intro h
    simp [require_user, h]
  · intro s rest h
    constructor
    · intro hexp
      simp [require_user, h, hexp]
    · intro hok
      simp [require_user, h, Nat.not_lt.mpr hok]

/-- C6 witness: concrete runs of `require_user_spec`. -/
theorem require_user_spec_witness :
    require_user [⟨"u1", "tok", 5⟩] "tok" 7
      = .error (.http 401 "Session expired") :=
  ((require_user_spec [⟨"u1", "tok", 5⟩] "tok" 7).2 ⟨"u1", "tok", 5⟩ []
    (by decide)).1 (by decide)

/-- C7: registering user `u` with connection `c2` while `c1` was registered
leaves only `c2` discoverable by `lookupConn`, and a later stale deregister
of the displaced `c1` is a literal no-op on the table (in particular it does
not remove `c2`).  `hfresh` says `c1` is not some other user's live socket,
which holds in the handler since each accepted websocket object is
registered under at most one user. -/
theorem presence_register_overwrite_deregister_noop
    (reg : List (String × Nat)) (u : String) (c1 c2 : Nat)
    (hne : c1 ≠ c2) (hfresh : ∀ p ∈ reg, p.2 ≠ c1) :
    lookupConn (registerConn (registerConn reg u c1) u c2) u = some c2 ∧
    deregisterConn (registerConn (registerConn reg u c1) u c2) c1
      = registerConn (registerConn reg u c1) u c2 ∧
    lookupConn
      (deregisterConn (registerConn (registerConn reg u c1) u c2) c1) u
      = some c2 := by
  have hreg2 : registerConn (registerConn reg u c1) u c2
      = (u, c2) :: reg.filter (fun p => p.1 != u) := by
    simp [registerConn, List.filter_filter]
  have hlook : lookupConn ((u, c2) :: reg.filter (fun p => p.1 != u)) u
      = some c2 := by
    simp [lookupConn, List.find?]
  have hderog : deregisterConn ((u, c2) :: reg.filter (fun p => p.1 != u)) c1
      = (u, c2) :: reg.filter (fun p => p.1 != u) := by
    apply List.eraseP_of_forall_not
    intro p hp
    rcases List.mem_cons.mp hp with h | h
    · subst h
      simp [Ne.symm hne]
    · have := hfresh p (List.mem_of_mem_filter h)
      simp [this]
  refine ⟨by rw [hreg2]; exact hlook, by rw [hreg2]; exact hderog, ?_⟩
  rw [hreg2, hderog]
  exact hlook

/-- C7 witness: concrete run on an initially empty registry. -/
theorem presence_register_overwrite_deregister_noop_witness :
    lookupConn (registerConn (registerConn [] "u1" 1) "u1" 2) "u1" = some 2 ∧
    deregisterConn (registerConn (registerConn [] "u1" 1) "u1" 2) 1
      = registerConn (registerConn [] "u1" 1) "u1" 2 ∧
    lookupConn
      (deregisterConn (registerConn (registerConn [] "u1" 1) "u1" 2) 1) "u1"
      = some 2 :=
  presence_register_overwrite_deregister_noop [] "u1" 1 2 (by decide)
    (by intro p hp; cases hp)

/-- C9: on every termination of `websocket_endpoint` — failed authentication,
graceful disconnect, read-loop error, or a failed confirmation send — the
`finally` cleanup deregisters exactly this connection exactly once; and the
trace contains a `register` action iff authentication succeeded, so a
connection whose first frame fails authentication is closed without ever
having been registered. -/
theorem ws_handler_cleanup (sessions : List SessionDoc) (token : String)
    (now : Nat) (ws : Nat) (exit : LoopExit) :
    ((wsHandlerTrace sessions token now ws exit).filter isDeregisterAction)
      = [.deregister ws] ∧
    ((wsHandlerTrace sessions token now ws exit).filter
        isRegisterAction).length
      = (if authOk (require_user sessions token now) then 1 else 0) := by
  cases h : require_user sessions token now with
  | error e =>
      simp [wsHandlerTrace, h, authOk, isDeregisterAction, isRegisterAction,
        List.filter]
  | ok uid =>
      cases exit <;>
        simp [wsHandlerTrace, h, authOk, isDeregisterAction,
          isRegisterAction, List.filter]

/-- C1: the delivery-dispatch update of `send_message` is an unconditional
`update_one` to status "delivered" (`deliveredUpdate`); when a read-receipt
lands between the websocket push and that update (the push `await` is a
suspension point, and the pushed event already carries the message id), the
message goes "sent" → "read" → "delivered": the delivered-transition
downgrades a message already marked "read", violating monotonicity. -/
theorem read_then_delivered_regression :
    (findMsg
        (mark_read [⟨"bob", "tokB", 100⟩]
          [("aaaaaaaaaaaaaaaaaaaaaaaa",
            ⟨"alice", "bob", some "hi", none, none, "sent", some 1, none,
              none⟩)]
          [] "tokB" ["aaaaaaaaaaaaaaaaaaaaaaaa"] 2).messages
        "aaaaaaaaaaaaaaaaaaaaaaaa").map MessageDoc.status
      = some "read" ∧
    (findMsg
        (deliveredUpdate
          (mark_read [⟨"bob", "tokB", 100⟩]
            [("aaaaaaaaaaaaaaaaaaaaaaaa",
              ⟨"alice", "bob", some "hi", none, none, "sent", some 1, none,
                none⟩)]
            [] "tokB" ["aaaaaaaaaaaaaaaaaaaaaaaa"] 2).messages
          "aaaaaaaaaaaaaaaaaaaaaaaa" 3)
        "aaaaaaaaaaaaaaaaaaaaaaaa").map MessageDoc.status
      = some "delivered" := by
  decide

/-- A successful parse yields exactly one ObjectId per raw input string. -/
theorem parseIds_ok_length (l : List String) (ids : List String)
    (h : parseIds l = .ok ids) : ids.length = l.length := by
  induction l generalizing ids with
  | nil =>
      simp [parseIds] at h
      simp [← h]
  | cons s rest ih =>
      by_cases hv : isValidObjectId s
      · simp [parseIds, hv] at h
        cases hrest : parseIds rest with
        | ok ids' =>
            rw [hrest] at h
            cases h
            simp [ih ids' hrest]
        | error e => rw [hrest] at h; cases h
      · simp [parseIds, hv] at h

/-- The only exception `[ObjectId(i) for i in ids]` raises is `InvalidId` for
some malformed member of the list. -/
theorem parseIds_error_invalidId (l : List String) (e : MError)
    (h : parseIds l = .error e) :
    ∃ raw, raw ∈ l ∧ e = .invalidId raw ∧ isValidObjectId raw = false := by
  induction l with
  | nil => simp [parseIds] at h
  | cons s rest ih =>
      by_cases hv : isValidObjectId s
      · simp [parseIds, hv] at h
        cases hrest : parseIds rest with
        | ok ids' => rw [hrest] at h; cases h
        | error e' =>
            rw [hrest] at h
            cases h
            obtain ⟨raw, hmem, he, hbad⟩ := ih hrest
            exact ⟨raw, List.mem_cons_of_mem _ hmem, he, hbad⟩
      · simp [parseIds, hv] at h
        exact ⟨s, List.mem_cons_self _ _, h.symm, by simpa using hv⟩

/-- C2 counterexample: the caller `u1` marks one message that exists but is
owned by recipient `"other"` — nothing in the store changes, yet the handler
answers `{"updated": 1}` (`len(ids)`), not the actual update count 0. -/
theorem mark_read_count_counterexample :
    (mark_read [⟨"u1", "tok", 100⟩]
        [("aaaaaaaaaaaaaaaaaaaaaaaa",
          ⟨"alice", "other", some "hi", none, none, "sent", some 1, none,
            none⟩)]
        [] "tok" ["aaaaaaaaaaaaaaaaaaaaaaaa"] 5).response = .ok 1 ∧
    (mark_read [⟨"u1", "tok", 100⟩]
        [("aaaaaaaaaaaaaaaaaaaaaaaa",
          ⟨"alice", "other", some "hi", none, none, "sent", some 1, none,
            none⟩)]
        [] "tok" ["aaaaaaaaaaaaaaaaaaaaaaaa"] 5).messages
      = [("aaaaaaaaaaaaaaaaaaaaaaaa",
          ⟨"alice", "other", some "hi", none, none, "sent", some 1, none,
            none⟩)] := by
  decide

/-- C2 (amended): whenever authentication and id parsing succeed, the
`updated` count the read-receipt handler returns is the length of the input
`message_ids` list, irrespective of how many messages were actually
changed. -/
theorem mark_read_updated_eq_input_length (sessions : List SessionDoc)
    (msgs : List (String × MessageDoc)) (conns : List (String × Nat))
    (token : String) (message_ids : List String) (now : Nat) (uid : String)
    (pids : List String)
    (hu : require_user sessions token now = .ok uid)
    (hp : parseIds message_ids = .ok pids) :
    (mark_read sessions msgs conns token message_ids now).response
      = .ok message_ids.length := by
  simp [mark_read, hu, hp, parseIds_ok_length _ _ hp]

/-- C2 witness: a concrete run of `mark_read_updated_eq_input_length`. -/
theorem mark_read_updated_eq_input_length_witness :
    (mark_read [⟨"u1", "tok", 100⟩] [] [] "tok"
        ["aaaaaaaaaaaaaaaaaaaaaaaa"] 5).response = .ok 1 := by
  exact mark_read_updated_eq_input_length [⟨"u1", "tok", 100⟩] [] [] "tok"
    ["aaaaaaaaaaaaaaaaaaaaaaaa"] 5 "u1" ["aaaaaaaaaaaaaaaaaaaaaaaa"]
    (by decide) (by decide)

/-- C5: on a successful read-receipt call, the handler answers without error
(excluded ids raise nothing), and every stored message whose recipient is not
the caller — including those listed in the request — is left exactly as it
was, at its position in the collection. -/
theorem mark_read_frame (sessions : List SessionDoc)
    (msgs : List (String × MessageDoc)) (conns : List (String × Nat))
    (token : String) (message_ids : List String) (now : Nat) (uid : String)
    (pids : List String)
    (hu : require_user sessions token now = .ok uid)
    (hp : parseIds message_ids = .ok pids) :
    (mark_read sessions msgs conns token message_ids now).response
      = .ok pids.length ∧
    ∀ i : Nat, ∀ h : i < msgs.length,
      (msgs.get ⟨i, h⟩).2.recipient_id ≠ uid →
      (mark_read sessions msgs conns token message_ids now).messages[i]?
        = some (msgs.get ⟨i, h⟩) := by
  constructor
  · simp [mark_read, hu, hp]
  · intro i h hne
    simp only [List.get_eq_getElem] at hne ⊢
    have hgm : msgs[i]? = some msgs[i] := List.getElem?_eq_getElem h
    simp [mark_read, hu, hp, readUpdateList, hgm, hne]

/-- C5 witness: a batch holding a message owned by another recipient —
response is a success and the foreign message survives unchanged. -/
theorem mark_read_frame_witness :
    (mark_read [⟨"u1", "tok", 100⟩]
        [("aaaaaaaaaaaaaaaaaaaaaaaa",
          ⟨"alice", "other", some "hi", none, none, "sent", some 1, none,
            none⟩)]
        [] "tok" ["aaaaaaaaaaaaaaaaaaaaaaaa"] 5).response = .ok 1 ∧
    (mark_read [⟨"u1", "tok", 100⟩]
        [("aaaaaaaaaaaaaaaaaaaaaaaa",
          ⟨"alice", "other", some "hi", none, none, "sent", some 1, none,
            none⟩)]
        [] "tok" ["aaaaaaaaaaaaaaaaaaaaaaaa"] 5).messages[0]?
      = some ("aaaaaaaaaaaaaaaaaaaaaaaa",
          ⟨"alice", "other", some "hi", none, none, "sent", some 1, none,
            none⟩) := by
  have h := mark_read_frame [⟨"u1", "tok", 100⟩]
    [("aaaaaaaaaaaaaaaaaaaaaaaa",
      ⟨"alice", "other", some "hi", none, none, "sent", some 1, none, none⟩)]
    [] "tok" ["aaaaaaaaaaaaaaaaaaaaaaaa"] 5 "u1" ["aaaaaaaaaaaaaaaaaaaaaaaa"]
    (by decide) (by decide)
  exact ⟨h.1, h.2 0 (by decide) (by decide)⟩

/-- C10: a message whose recipient is the caller and whose id is in the
batch goes straight to status "read" with `read_at = now`; `delivered_at` is
not touched, so a message read while still "sent" ends "read" with
`delivered_at` still null — "delivered" is skipped entirely. -/
theorem mark_read_sent_to_read (sessions : List SessionDoc)
    (msgs : List (String × MessageDoc)) (conns : List (String × Nat))
    (token : String) (message_ids : List String) (now : Nat) (uid : String)
    (pids : List String) (i : Nat)
    (hu : require_user sessions token now = .ok uid)
    (hp : parseIds message_ids = .ok pids)
    (h : i < msgs.length)
    (hrec : (msgs.get ⟨i, h⟩).2.recipient_id = uid)
    (hin : pids.contains (msgs.get ⟨i, h⟩).1 = true)
    (_hst : (msgs.get ⟨i, h⟩).2.status = "sent")
    (hdel : (msgs.get ⟨i, h⟩).2.delivered_at = none) :
    (mark_read sessions msgs conns token message_ids now).messages[i]?
      = some ((msgs.get ⟨i, h⟩).1,
          { (msgs.get ⟨i, h⟩).2 with
              status := "read",
              read_at := some now }) ∧
    ({ (msgs.get ⟨i, h⟩).2 with
        status := "read",
        read_at := some now } : MessageDoc).delivered_at = none := by
  constructor
  · simp only [List.get_eq_getElem] at hrec hin ⊢
    have hgm : msgs[i]? = some msgs[i] := List.getElem?_eq_getElem h
    simp [mark_read, hu, hp, readUpdateList, hgm, hin, hrec]
    intro hcon
    exact absurd (by simpa using hin) hcon
  · simpa using hdel

/-- C10 witness: a "sent" message marked read by its recipient ends "read",
`read_at = 5`, `delivered_at` still `none`. -/
theorem mark_read_sent_to_read_witness :
    (mark_read [⟨"bob", "tok", 100⟩]
        [("aaaaaaaaaaaaaaaaaaaaaaaa",
          ⟨"alice", "bob", some "hi", none, none, "sent", some 1, none,
            none⟩)]
        [] "tok" ["aaaaaaaaaaaaaaaaaaaaaaaa"] 5).messages[0]?
      = some ("aaaaaaaaaaaaaaaaaaaaaaaa",
          ⟨"alice", "bob", some "hi", none, none, "read", some 1, none,
            some 5⟩) := by
  have h := mark_read_sent_to_read [⟨"bob", "tok", 100⟩]
    [("aaaaaaaaaaaaaaaaaaaaaaaa",
      ⟨"alice", "bob", some "hi", none, none, "sent", some 1, none, none⟩)]
    [] "tok" ["aaaaaaaaaaaaaaaaaaaaaaaa"] 5 "bob" ["aaaaaaaaaaaaaaaaaaaaaaaa"]
    0 (by decide) (by decide) (by decide) (by decide) (by decide) (by decide)
    (by decide)
  exact h.1

/-- C8 counterexample: a malformed id in the batch makes the handler raise
`bson.errors.InvalidId` out of the naked `[ObjectId(i) for i in ...]`
comprehension — an uncaught exception (500 server error), not one of the
`HTTPException` client errors the handler raises deliberately. -/
theorem mark_read_malformed_id_counterexample :
    (mark_read [⟨"u1", "tok", 100⟩] [] [] "tok" ["bad"] 5).response
      = .error (.invalidId "bad") ∧
    isClientError (.invalidId "bad") = false := by
  decide

/-- C8 (amended): when the ids fail to parse, the read-receipt handler
terminates with the uncaught `InvalidId` exception for some malformed member
of the input — a server error, not a client error with a reason string —
and the store is left untouched. -/
theorem mark_read_malformed_id_server_error (sessions : List SessionDoc)
    (msgs : List (String × MessageDoc)) (conns : List (String × Nat))
    (token : String) (message_ids : List String) (now : Nat) (uid : String)
    (e : MError)
    (hu : require_user sessions token now = .ok uid)
    (hp : parseIds message_ids = .error e) :
    (mark_read sessions msgs conns token message_ids now).response
      = .error e ∧
    (mark_read sessions msgs conns token message_ids now).messages = msgs ∧
    isClientError e = false ∧
    ∃ raw, raw ∈ message_ids ∧ e = .invalidId raw ∧
      isValidObjectId raw = false := by
  obtain ⟨raw, hmem, he, hbad⟩ := parseIds_error_invalidId _ _ hp
  refine ⟨by simp [mark_read, hu, hp], by simp [mark_read, hu, hp], ?_, 
    raw, hmem, he, hbad⟩
  rw [he]
  rfl

/-- C8 witness: a concrete run of `mark_read_malformed_id_server_error`. -/
theorem mark_read_malformed_id_server_error_witness :
    (mark_read [⟨"u1", "tok", 100⟩] [] [] "tok" ["zz"] 5).response
      = .error (.invalidId "zz") ∧ isClientError (.invalidId "zz") = false := by
  have h := mark_read_malformed_id_server_error [⟨"u1", "tok", 100⟩] [] []
    "tok" ["zz"] 5 "u1" (.invalidId "zz") (by decide) (by decide)
  exact ⟨h.1, h.2.2.1⟩

/-- C4 counterexample: the batch holds one message owned by recipient
`"other"`, so caller `u1`'s read-receipt updates nothing — yet the handler
still pushes a `"read"` event for it to its online sender `alice`
(socket 7). -/
theorem mark_read_notify_counterexample :
    (mark_read [⟨"u1", "tok", 100⟩]
        [("aaaaaaaaaaaaaaaaaaaaaaaa",
          ⟨"alice", "other", some "hi", none, none, "sent", some 1, none,
            none⟩)]
        [("alice", 7)] "tok" ["aaaaaaaaaaaaaaaaaaaaaaaa"] 5).messages
      = [("aaaaaaaaaaaaaaaaaaaaaaaa",
          ⟨"alice", "other", some "hi", none, none, "sent", some 1, none,
            none⟩)] ∧
    (mark_read [⟨"u1", "tok", 100⟩]
        [("aaaaaaaaaaaaaaaaaaaaaaaa",
          ⟨"alice", "other", some "hi", none, none, "sent", some 1, none,
            none⟩)]
        [("alice", 7)] "tok" ["aaaaaaaaaaaaaaaaaaaaaaaa"] 5).events
      = [(7, Event.readEvent "aaaaaaaaaaaaaaaaaaaaaaaa" 5 "u1")] := by
  decide

/-- C4 (amended): on a successful call, a `"read"` event for id `oid` goes to
socket `ws` exactly when `oid` is one of the parsed request ids, a message
with that id exists in the store, and the Presence Registry maps that
message's sender to `ws` — whether or not the message was updated (its
recipient need not be the caller). -/
theorem mark_read_notify_characterization (sessions : List SessionDoc)
    (msgs : List (String × MessageDoc)) (conns : List (String × Nat))
    (token : String) (message_ids : List String) (now : Nat) (uid : String)
    (pids : List String)
    (hu : require_user sessions token now = .ok uid)
    (hp : parseIds message_ids = .ok pids) :
    ∀ ws oid,
      ((ws, Event.readEvent oid now uid)
          ∈ (mark_read sessions msgs conns token message_ids now).events) ↔
      (oid ∈ pids ∧ ∃ m,
        findMsg (readUpdateList msgs pids uid now) oid = some m ∧
        lookupConn conns m.sender_id = some ws) := by
  intro ws oid
  simp only [mark_read, hu, hp, notifyEvents, List.mem_filterMap, findMsg,
    Option.bind_eq_some, Option.map_eq_some', Prod.mk.injEq,
    Event.readEvent.injEq]
  constructor
  · rintro ⟨a, ha, p, hfind, w, hlook, hw, hoid, -, -⟩
    subst hoid
    exact ⟨ha, p.2, ⟨p, hfind, rfl⟩, by rw [hlook, hw]⟩
  · rintro ⟨hmem, m, ⟨p, hfind, hm⟩, hlook⟩
    exact ⟨oid, hmem, p, hfind, ws, by rw [hm, hlook], rfl, rfl, trivial,
      trivial⟩

/-- C4 witness: a concrete run of `mark_read_notify_characterization`:
the event to socket 7 is in the pushed list. -/
theorem mark_read_notify_characterization_witness :
    (7, Event.readEvent "aaaaaaaaaaaaaaaaaaaaaaaa" 5 "u1")
      ∈ (mark_read [⟨"u1", "tok", 100⟩]
          [("aaaaaaaaaaaaaaaaaaaaaaaa",
            ⟨"alice", "other", some "hi", none, none, "sent", some 1, none,
              none⟩)]
          [("alice", 7)] "tok" ["aaaaaaaaaaaaaaaaaaaaaaaa"] 5).events := by
  exact (mark_read_notify_characterization [⟨"u1", "tok", 100⟩]
    [("aaaaaaaaaaaaaaaaaaaaaaaa",
      ⟨"alice", "other", some "hi", none, none, "sent", some 1, none, none⟩)]
    [("alice", 7)] "tok" ["aaaaaaaaaaaaaaaaaaaaaaaa"] 5 "u1"
    ["aaaaaaaaaaaaaaaaaaaaaaaa"] (by decide) (by decide) 7
    "aaaaaaaaaaaaaaaaaaaaaaaa").mpr (by decide)

/-- C3 counterexample: recipient `bob` is registered (socket 9) and the push
over his broken connection fails — the sender's request terminates with the
uncaught push exception instead of the normal `{"message_id": ...}`
success response. -/
theorem send_push_failure_counterexample :
    (send_message [⟨"u1", "tok", 100⟩] [] [("bob", 9)] "tok" "bob"
        (some "hi") none none 3 "aaaaaaaaaaaaaaaaaaaaaaaa" false).response
      = .error .pushFailure := by
  decide

/-- C3 (amended): when the recipient is present in the registry and the push
fails, the delivered-update never runs — the freshly persisted message keeps
status "sent" — but the failure is NOT swallowed: `ws.send_json` is not
wrapped in try/except, so the exception propagates and the sender gets a
server error, not a success response with the message id.  `hfresh` says the
generated id is new, as `insert_one`'s generated ids are. -/
theorem send_push_failure_not_swallowed (sessions : List SessionDoc)
    (msgs : List (String × MessageDoc)) (conns : List (String × Nat))
    (token recipient_id : String) (text ciphertext nonce : Option String)
    (now : Nat) (newId : String) (sender : String) (ws : Nat)
    (hu : require_user sessions token now = .ok sender)
    (hws : lookupConn conns recipient_id = some ws)
    (hfresh : findMsg msgs newId = none) :
    (send_message sessions msgs conns token recipient_id text ciphertext
        nonce now newId false).response = .error .pushFailure ∧
    (send_message sessions msgs conns token recipient_id text ciphertext
        nonce now newId false).events = [] ∧
    (findMsg (send_message sessions msgs conns token recipient_id text
        ciphertext nonce now newId false).messages newId).map
        MessageDoc.status = some "sent" := by
  refine ⟨by simp [send_message, hu, hws], by simp [send_message, hu, hws],
    ?_⟩
  have hnone : msgs.find? (fun p => p.1 == newId) = none := by
    cases hf : msgs.find? (fun p => p.1 == newId) with
    | none => rfl
    | some p => rw [findMsg, hf] at hfresh; cases hfresh
  simp [send_message, hu, hws, findMsg, hnone]

/-- C3 witness: a concrete run of `send_push_failure_not_swallowed`. -/
theorem send_push_failure_not_swallowed_witness :
    (send_message [⟨"u1", "tok", 100⟩] [] [("bob", 9)] "tok" "bob"
        (some "hi") none none 3 "bbbbbbbbbbbbbbbbbbbbbbbb" false).response
      = .error .pushFailure ∧
    (findMsg (send_message [⟨"u1", "tok", 100⟩] [] [("bob", 9)] "tok" "bob"
        (some "hi") none none 3 "bbbbbbbbbbbbbbbbbbbbbbbb" false).messages
        "bbbbbbbbbbbbbbbbbbbbbbbb").map MessageDoc.status = some "sent" := by
  have h := send_push_failure_not_swallowed [⟨"u1", "tok", 100⟩] []
    [("bob", 9)] "tok" "bob" (some "hi") none none 3
    "bbbbbbbbbbbbbbbbbbbbbbbb" "u1" 9 (by decide) (by decide) (by decide)
  exact ⟨h.1, h.2.2⟩
